import Mathlib

/-
Verification development for the GEDI pipeline QGIS plugin
(pipeline/pipeline/downloader.py and pipeline/pipeline/pipeline.py).

The Python source is shallowly embedded: pure string manipulation becomes
functions on `List Char`, the filesystem visible to a single
`download_granule` call is the optional size of the file at the derived
target path, the HTTP layer is a `Server` record giving the status, the
content-length header and the body chunk sizes that `iter_content` would
yield, and the orchestration loop of `run_pipeline` becomes a recursion
that emits an action trace plus an optional uncaught Python exception.
-/

set_option autoImplicit false

namespace GEDI

/-! ## String helpers (embedding Python `url.split("/")[-1]` and `"GEDI" in s`) -/

/-- Characters after the last occurrence of `sep`, i.e. Python
`s.split(sep)[-1]` when `sep` is a single character. -/
def lastSegment (sep : Char) (s : List Char) : List Char :=
  (List.takeWhile (fun c => c ≠ sep) s.reverse).reverse

/-- Does `p` occur as a leading run of `s`? -/
def leadingRun : List Char → List Char → Bool
  | [], _ => true
  | _ :: _, [] => false
  | p :: ps, x :: xs => p = x && leadingRun ps xs

/-- Does `pat` occur contiguously somewhere in `s`?  This is Python's
`pat in s` for strings. -/
def containsSeq (pat : List Char) : List Char → Bool
  | [] => leadingRun pat []
  | x :: xs => leadingRun pat (x :: xs) || containsSeq pat xs

/-- The product family marker substring checked by `download_granule`. -/
def markerGEDI : List Char := ['G', 'E', 'D', 'I']

/-! ## SessionNASA.rebuild_auth -/

/-- `SessionNASA.AUTH_HOST` (downloader.py line 11). -/
def AUTH_HOST : String := "urs.earthdata.nasa.gov"

/-- Embeds `SessionNASA.rebuild_auth` (downloader.py lines 39-54).
`originalHost` is the host of the request that produced the redirect
response, `redirectHost` the host of the prepared follow-up request and
`hasAuth` whether an Authorization header is present on it.  Returns
whether the Authorization header is still present after the call. -/
def rebuild_auth (originalHost redirectHost : String) (hasAuth : Bool) : Bool :=
  if hasAuth then
    if originalHost != redirectHost && redirectHost != AUTH_HOST
        && originalHost != AUTH_HOST then
      false
    else
      true
  else
    false

/-- Whether `rebuild_auth` stripped a credential header. -/
def authStripped (originalHost redirectHost : String) (hasAuth : Bool) : Bool :=
  hasAuth && !(rebuild_auth originalHost redirectHost hasAuth)

/-! ## GEDIDownloader -/

/-- The HTTP response visible to one `download_granule` call: `ok` is
`http_response.ok`, `contentLength` the optional content-length header,
and `chunks` the sizes of the byte chunks that `iter_content` yields
(a `0` entry is a keep-alive chunk). -/
structure Server where
  ok : Bool
  contentLength : Option Nat
  chunks : List Nat
  deriving DecidableEq

/-- Embeds `GEDIDownloader.__download` (downloader.py lines 75-84): bytes
written to disk, skipping empty keep-alive chunks. -/
def writtenSize (chunks : List Nat) : Nat :=
  (chunks.filter (fun c => c ≠ 0)).sum

/-- Result of `GEDIDownloader.__precheck_file` (downloader.py lines 86-104):
`(skip, file after the call, whether a stale file was deleted)`. -/
def precheck_file (file : Option Nat) (size : Nat) : Bool × Option Nat × Bool :=
  match file with
  | none => (false, none, false)
  | some s => if s ≠ size then (false, none, true) else (true, some s, false)

/-- Everything observable about one `download_granule` call: the returned
boolean, the size of the file at the target path afterwards, how many body
bytes were streamed off the network, and whether a stale on-disk file was
deleted by the precheck. -/
structure DownloadOutcome where
  ret : Bool
  file : Option Nat
  transferred : Nat
  staleDeleted : Bool
  deriving DecidableEq

/-- Embeds `GEDIDownloader.download_granule` (downloader.py lines 107-145).
`file` is the size of the file currently at the derived target path
(none if absent); `srv` the server's response to the streaming GET. -/
def download_granule (url : String) (file : Option Nat) (srv : Server) :
    DownloadOutcome :=
  let filename := lastSegment '/' url.data
  if ¬ containsSeq markerGEDI filename then
    -- "GEDI" not in filename: reject before any request
    ⟨false, file, 0, false⟩
  else if ¬ srv.ok then
    -- non-2xx status: credentials problem, return False
    ⟨false, file, 0, false⟩
  else
    match srv.contentLength with
    | none =>
      -- missing content-length header: skip the download
      ⟨false, file, 0, false⟩
    | some len =>
      match precheck_file file len with
      | (true, f1, del) =>
        -- file already complete: skip the transfer, then the final
        -- getsize check compares the untouched file against len
        ⟨(match f1 with | some s => s == len | none => false), f1, 0, del⟩
      | (false, _, del) =>
        -- download the body, then re-stat and compare sizes
        let w := writtenSize srv.chunks
        ⟨w == len, some w, w, del⟩

/-! ## GEDIDownloader.download_files -/

/-- Embeds the `while retries > 0` loop of `download_files` (downloader.py
lines 157-163).  `attempt n` is the result the `(n+1)`-th call to
`download_granule` for this granule would return (the on-disk and server
state may change between attempts, so attempts are an oracle indexed by
attempt number).  Returns how many calls the loop performs starting at
attempt index `n` with `r` retries left. -/
def retry_loop (attempt : Nat → Bool) : Nat → Nat → Nat
  | 0, _ => 0
  | r + 1, n => if attempt n then 1 else 1 + retry_loop attempt r (n + 1)

/-- Number of `download_granule` calls `download_files` performs for one
granule: the initial attempt, then on failure the retry loop with
`retries = 3` (downloader.py lines 156-163). -/
def attemptsForGranule (attempt : Nat → Bool) : Nat :=
  if attempt 0 then 1 else 1 + retry_loop attempt 3 1

/-- Per-granule attempt counts of `download_files` over a granule list,
`att i n` being the outcome of attempt `n` for the granule at index `i`. -/
def download_files_counts (att : Nat → Nat → Bool) :
    List String → Nat → List Nat
  | [], _ => []
  | _ :: rest, i => attemptsForGranule (att i) :: download_files_counts att rest (i + 1)

/-- Embeds `GEDIDownloader.download_files` (downloader.py lines 147-166):
returns the input list unchanged together with the per-granule number of
`download_granule` calls performed. -/
def download_files (att : Nat → Nat → Bool) (files : List String) :
    List String × List Nat :=
  (files, download_files_counts att files 0)

/-! ## GEDIPipeline.__init__ (ROI resolution, pipeline.py lines 17-80) -/

/-- The `roi` constructor argument: a Python list of numbers, a
comma-delimited string (carried here already parsed to its numbers), or
any other value (e.g. `None`), in which case neither `isinstance` branch
fires and `self.roi` is never assigned from it. -/
inductive RoiArg where
  | numericList (cs : List Int)
  | commaString (cs : List Int)
  | absent
  deriving DecidableEq

/-- Total bounds of the polygon file after reprojection, as returned by
`gdf.total_bounds`: `(minx, miny, maxx, maxy)`. -/
structure Bounds where
  minx : Int
  miny : Int
  maxx : Int
  maxy : Int
  deriving DecidableEq

/-- Outcome of `gp.read_file` plus the CRS handling: success with derived
bounds, or any read/reprojection exception. -/
inductive ReadResult where
  | ok (b : Bounds)
  | fail
  deriving DecidableEq

/-- What `GEDIPipeline.__init__` leaves behind: `self.roi` (none when the
attribute was never assigned), `self.roi_gdf` presence, and whether the
constructor completed.  Building `GEDIFinder(..., roi=self.roi)` at
pipeline.py line 55 reads `self.roi`, which raises `AttributeError` when
that attribute was never set; `constructedOk` is false exactly then. -/
structure InitOutcome where
  roi : Option (List Int)
  roi_gdf : Bool
  constructedOk : Bool
  deriving DecidableEq

/-- Embeds the ROI-resolution part of `GEDIPipeline.__init__`
(pipeline.py lines 27-76). -/
def pipeline_init (roiArg : RoiArg) (roiPath : Option String)
    (read : ReadResult) : InitOutcome :=
  let roi0 : Option (List Int) :=
    match roiArg with
    | .numericList cs => some cs
    | .commaString cs => some cs
    | .absent => none
  let roiAndGdf : Option (List Int) × Bool :=
    match roiPath with
    | none => (roi0, false)
    | some _ =>
      match read with
      | .ok b => (some [b.maxy, b.minx, b.miny, b.maxx], true)
      | .fail => (roi0, false)   -- exception caught, only logged
  { roi := roiAndGdf.1
    roi_gdf := roiAndGdf.2
    constructedOk := roiAndGdf.1.isSome }

/-! ## GEDIPipeline.run_pipeline (pipeline.py lines 83-116) -/

/-- One observable action of the per-granule loop, tagged with the index
of the granule it belongs to: the cancellation check at the top of the
iteration, the already-subsetted existence check, a first
`download_granule` call, a `subset` call, and the `os.remove` of the raw
downloaded file. -/
inductive Act where
  | cancelCheck (i : Nat)
  | skipCheck (i : Nat)
  | download (i : Nat)
  | subset (i : Nat)
  | removeRaw (i : Nat)
  deriving DecidableEq

/-- The granule index an action belongs to. -/
def Act.idx : Act → Nat
  | cancelCheck i => i
  | skipCheck i => i
  | download i => i
  | subset i => i
  | removeRaw i => i

/-- Whether an action is per-granule work (everything except the mere
reading of the cancellation flag). -/
def Act.isWork : Act → Bool
  | cancelCheck _ => false
  | _ => true

/-- Environment of one granule as the loop observes it: whether the
derived `.gpkg` output already exists, and whether the first
`download_granule` call for it returns `True`. -/
structure GranuleEnv where
  alreadySubsetted : Bool
  downloadOk : Bool
  deriving DecidableEq

/-- `self.cancel_event is not None and self.cancel_event.is_set()`
(pipeline.py line 89): the flag may be set externally at any time, so it
is a function of the loop iteration at which it is read. -/
def cancelIsSet : Option (Nat → Bool) → Nat → Bool
  | none, _ => false
  | some f, i => f i

/-- The Python message raised by `for r in retries` with `retries = 3`
(pipeline.py line 101); the real text quotes the word int. -/
def typeErrorMsg : String := "TypeError: int object is not iterable"

/-- Embeds the per-granule loop of `run_pipeline` (pipeline.py lines
88-114).  Returns the trace of actions performed and the uncaught Python
exception, if any.  When the first `download_granule` call fails the code
prints a message and then executes `for r in retries` where `retries` is
the int `3`, which raises `TypeError` before any retry runs, aborting the
whole loop. -/
def run_go (keep : Bool) (cancel : Option (Nat → Bool))
    (env : Nat → GranuleEnv) : List String → Nat → List Act × Option String
  | [], _ => ([], none)
  | _ :: rest, i =>
    if cancelIsSet cancel i then
      ([Act.cancelCheck i], none)
    else if (env i).alreadySubsetted then
      (Act.cancelCheck i :: Act.skipCheck i :: (run_go keep cancel env rest (i + 1)).1,
       (run_go keep cancel env rest (i + 1)).2)
    else if (env i).downloadOk then
      (Act.cancelCheck i :: Act.skipCheck i :: Act.download i :: Act.subset i ::
        ((if keep then [] else [Act.removeRaw i]) ++ (run_go keep cancel env rest (i + 1)).1),
       (run_go keep cancel env rest (i + 1)).2)
    else
      ([Act.cancelCheck i, Act.skipCheck i, Act.download i], some typeErrorMsg)

/-- Embeds `run_pipeline` after discovery: `granules` is the list the
finder returned (`all_granules`, one URL per granule).  The first
component is the Python-level result — `Except.ok all_granules` when the
loop finishes or breaks on cancellation, `Except.error` when the defective
retry loop raises — and the second the trace of performed actions. -/
def run_pipeline (keep : Bool) (cancel : Option (Nat → Bool))
    (env : Nat → GranuleEnv) (granules : List String) :
    Except String (List String) × List Act :=
  match (run_go keep cancel env granules 0).2 with
  | some e => (Except.error e, (run_go keep cancel env granules 0).1)
  | none => (Except.ok granules, (run_go keep cancel env granules 0).1)

/-! ## Theorems about the downloader -/

/-- Claim C4: `download_granule` is idempotent on a completed file.  When
the file at the derived target path already has the size announced by the
content-length header, a call returns `True`, leaves the file untouched
and streams zero body bytes; hence calling it twice returns `True` both
times and the second call performs zero bytes of network transfer. -/
theorem download_granule_idempotent_on_complete (url : String) (len : Nat)
    (srv : Server)
    (hm : containsSeq markerGEDI (lastSegment '/' url.data) = true)
    (hok : srv.ok = true) (hlen : srv.contentLength = some len) :
    download_granule url (some len) srv = ⟨true, some len, 0, false⟩ ∧
    download_granule url (download_granule url (some len) srv).file srv =
      ⟨true, some len, 0, false⟩ := by
  have h1 : download_granule url (some len) srv = ⟨true, some len, 0, false⟩ := by
    simp [download_granule, hm, hok, hlen, precheck_file]
  exact ⟨h1, by rw [h1]; exact h1⟩

/-- Witness for C4 at a concrete URL, file and server. -/
theorem download_granule_idempotent_on_complete_witness :
    download_granule "https://h/GEDI02_A_x.h5" (some 7)
        (Server.mk true (some 7) [7]) =
      DownloadOutcome.mk true (some 7) 0 false ∧
    download_granule "https://h/GEDI02_A_x.h5"
        (download_granule "https://h/GEDI02_A_x.h5" (some 7)
          (Server.mk true (some 7) [7])).file
        (Server.mk true (some 7) [7]) =
      DownloadOutcome.mk true (some 7) 0 false :=
  download_granule_idempotent_on_complete "https://h/GEDI02_A_x.h5" 7
    (Server.mk true (some 7) [7]) (by decide) rfl rfl

/-- Claim C5: a stale on-disk file (size different from the expected
content-length) is deleted and the object re-downloaded from scratch: the
resulting file holds exactly the newly streamed bytes, and the call
returns `True` exactly when the final on-disk size equals the
content-length (a post-write mismatch yields `False`). -/
theorem download_granule_corruption_recovery (url : String) (len s : Nat)
    (srv : Server)
    (hm : containsSeq markerGEDI (lastSegment '/' url.data) = true)
    (hok : srv.ok = true) (hlen : srv.contentLength = some len)
    (hs : s ≠ len) :
    download_granule url (some s) srv =
      ⟨writtenSize srv.chunks == len, some (writtenSize srv.chunks),
        writtenSize srv.chunks, true⟩ ∧
    ((download_granule url (some s) srv).ret = true ↔
      (download_granule url (some s) srv).file = some len) := by
  have h1 : download_granule url (some s) srv =
      ⟨writtenSize srv.chunks == len, some (writtenSize srv.chunks),
        writtenSize srv.chunks, true⟩ := by
    simp [download_granule, hm, hok, hlen, precheck_file, hs]
  rw [h1]
  exact ⟨rfl, by simp⟩

/-- Witness for C5: a 3-byte stale file against a 5-byte object, streamed
as chunks of sizes 2, 0 (keep-alive) and 3. -/
theorem download_granule_corruption_recovery_witness :
    download_granule "a/GEDI01_B.h5" (some 3) (Server.mk true (some 5) [2, 0, 3]) =
      DownloadOutcome.mk true (some 5) 5 true := by
  rw [(download_granule_corruption_recovery "a/GEDI01_B.h5" 5 3
    (Server.mk true (some 5) [2, 0, 3]) (by decide) rfl rfl (by decide)).1]
  decide

/-- Claim C9: `download_granule` returns `False` and transfers no body
bytes whenever the derived filename lacks the GEDI marker, the HTTP
status is non-success, or the content-length header is missing. -/
theorem download_granule_rejects_early (url : String) (file : Option Nat)
    (srv : Server)
    (h : containsSeq markerGEDI (lastSegment '/' url.data) = false ∨
      srv.ok = false ∨ srv.contentLength = none) :
    (download_granule url file srv).ret = false ∧
    (download_granule url file srv).transferred = 0 := by
  unfold download_granule
  rcases h with h | h | h
  · simp [h]
  · by_cases hm : containsSeq markerGEDI (lastSegment '/' url.data) = true
    · simp [hm, h]
    · simp [hm]
  · by_cases hm : containsSeq markerGEDI (lastSegment '/' url.data) = true
    · by_cases hok : srv.ok = true
      · simp [hm, hok, h]
      · simp [hm, hok]
    · simp [hm]

/-- Witness for C9: a URL whose filename lacks the marker. -/
theorem download_granule_rejects_early_witness :
    (containsSeq markerGEDI (lastSegment '/' "https://h/ATL08_x.h5".data) = false) ∧
    (download_granule "https://h/ATL08_x.h5" none (Server.mk true (some 5) [5])).ret = false ∧
    (download_granule "https://h/ATL08_x.h5" none (Server.mk true (some 5) [5])).transferred = 0 :=
  ⟨by decide,
   download_granule_rejects_early "https://h/ATL08_x.h5" none
     (Server.mk true (some 5) [5]) (Or.inl (by decide))⟩

/-- Claim C6 counterexample: a redirect that leaves the trusted auth host
for a third-party host keeps the Authorization header — the claim states
the follow-up request does not carry it. -/
theorem rebuild_auth_auth_host_to_third_party_cex :
    rebuild_auth AUTH_HOST "data.example.com" true = true := by decide

/-- Claim C6 (amended): the credential header is stripped iff it is
present, the original and redirect hosts differ, and neither host is the
trusted auth host; consequently a redirect leaving the trusted auth host
for a third-party host retains the header, as does one arriving at the
trusted host or staying within it. -/
theorem rebuild_auth_strip_rule (o r : String) (h : Bool) :
    (authStripped o r h = true ↔
      h = true ∧ o ≠ r ∧ o ≠ AUTH_HOST ∧ r ≠ AUTH_HOST) ∧
    rebuild_auth AUTH_HOST r true = true ∧
    rebuild_auth o AUTH_HOST true = true := by
  refine ⟨?_, by simp [rebuild_auth], by simp [rebuild_auth]⟩
  cases h with
  | false => simp [authStripped]
  | true =>
    simp [authStripped, rebuild_auth]
    tauto

/-! ## Theorems about download_files retry behavior -/

lemma attemptsForGranule_unfold (attempt : Nat → Bool) :
    attemptsForGranule attempt =
      if attempt 0 then 1 else 1 +
        (if attempt 1 then 1 else 1 +
          (if attempt 2 then 1 else 1 +
            (if attempt 3 then 1 else 1 + 0))) := rfl

lemma attemptsForGranule_all_fail (attempt : Nat → Bool)
    (h : ∀ n, n < 4 → attempt n = false) : attemptsForGranule attempt = 4 := by
  rw [attemptsForGranule_unfold, h 0 (by omega), h 1 (by omega),
    h 2 (by omega), h 3 (by omega)]
  simp

lemma attemptsForGranule_first_success (attempt : Nat → Bool) (k : Nat)
    (hk : k < 4) (hbefore : ∀ i, i < k → attempt i = false)
    (hsucc : attempt k = true) : attemptsForGranule attempt = k + 1 := by
  rcases k with - | - | - | - | k
  · rw [attemptsForGranule_unfold, hsucc]; simp
  · rw [attemptsForGranule_unfold, hbefore 0 (by omega), hsucc]; simp
  · rw [attemptsForGranule_unfold, hbefore 0 (by omega), hbefore 1 (by omega),
      hsucc]
    simp
  · rw [attemptsForGranule_unfold, hbefore 0 (by omega), hbefore 1 (by omega),
      hbefore 2 (by omega), hsucc]
    simp
  · omega

lemma download_files_counts_getElem (att : Nat → Nat → Bool) :
    ∀ (gs : List String) (i j : Nat), j < gs.length →
      (download_files_counts att gs i)[j]? =
        some (attemptsForGranule (att (i + j))) := by
  intro gs
  induction gs with
  | nil => intro i j hj; simp at hj
  | cons g rest ih =>
    intro i j hj
    cases j with
    | zero => simp [download_files_counts]
    | succ j' =>
      have h := ih (i + 1) j' (by simpa using hj)
      have he : i + 1 + j' = i + (j' + 1) := by omega
      rw [he] at h
      simpa [download_files_counts] using h

/-- Claim C2: for a granule at index `j` of the batch, `download_files`
calls `download_granule` exactly 4 times (1 initial + 3 retries) when
every attempt fails, and a succeeding attempt (the `k+1`-th, `k ≤ 3`)
stops further attempts, giving `k + 1` calls in total. -/
theorem download_files_retry_behavior (att : Nat → Nat → Bool)
    (gs : List String) (j : Nat) (hj : j < gs.length) :
    ((∀ n, n < 4 → att j n = false) →
      ((download_files att gs).2)[j]? = some 4) ∧
    (∀ k, k < 4 → (∀ i, i < k → att j i = false) → att j k = true →
      ((download_files att gs).2)[j]? = some (k + 1)) := by
  have hidx : ((download_files att gs).2)[j]? =
      some (attemptsForGranule (att j)) := by
    have := download_files_counts_getElem att gs 0 j hj
    simpa [download_files] using this
  constructor
  · intro hfail
    rw [hidx, attemptsForGranule_all_fail (att j) hfail]
  · intro k hk hbefore hsucc
    rw [hidx, attemptsForGranule_first_success (att j) k hk hbefore hsucc]

/-- Witness for C2: a two-granule batch whose first granule always fails
is attempted 4 times; the second granule succeeds on the third attempt
(index 2), so it is attempted 3 times. -/
theorem download_files_retry_behavior_witness :
    ((download_files (fun i n => i == 1 && n == 2) ["g1", "g2"]).2)[0]? = some 4 ∧
    ((download_files (fun i n => i == 1 && n == 2) ["g1", "g2"]).2)[1]? = some 3 :=
  ⟨(download_files_retry_behavior (fun i n => i == 1 && n == 2) ["g1", "g2"] 0
      (by decide)).1 (fun n _ => rfl),
   (download_files_retry_behavior (fun i n => i == 1 && n == 2) ["g1", "g2"] 1
      (by decide)).2 2 (by decide) (fun i hi => by interval_cases i <;> rfl) rfl⟩

/-! ## Theorems about GEDIPipeline.__init__ ROI handling -/

/-- Claim C3 counterexample: with a numeric ROI also supplied, a polygon
read failure leaves the constructor fully successful with the numeric
ROI, so the pipeline does not refuse to run and proceeds to discovery. -/
theorem pipeline_init_polygon_failure_proceeds_cex :
    pipeline_init (RoiArg.numericList [10, -60, -5, -45]) (some "roi.gpkg")
        ReadResult.fail =
      { roi := some [10, -60, -5, -45], roi_gdf := false,
        constructedOk := true } := rfl

/-- Claim C3 (amended): on a polygon read/reprojection failure the polygon
geometry stays unset and the failure is only logged; there is no fail-fast
check: when a numeric or string ROI was supplied the pipeline is
constructed with that ROI and proceeds, and only when no numeric/string
ROI was supplied does construction fail, by AttributeError when the
finder reads the never-assigned roi attribute. -/
theorem pipeline_init_polygon_failure_behavior (roiArg : RoiArg) (p : String) :
    (pipeline_init roiArg (some p) ReadResult.fail).roi_gdf = false ∧
    (∀ cs, roiArg = RoiArg.numericList cs ∨ roiArg = RoiArg.commaString cs →
      pipeline_init roiArg (some p) ReadResult.fail =
        { roi := some cs, roi_gdf := false, constructedOk := true }) ∧
    (roiArg = RoiArg.absent →
      pipeline_init roiArg (some p) ReadResult.fail =
        { roi := none, roi_gdf := false, constructedOk := false }) := by
  rcases roiArg with cs | cs | _ <;>
    simp [pipeline_init]

/-- Witness for the amended C3 at a concrete comma-string ROI. -/
theorem pipeline_init_polygon_failure_behavior_witness :
    pipeline_init (RoiArg.commaString [1, 2, 3, 4]) (some "r.shp")
        ReadResult.fail =
      { roi := some [1, 2, 3, 4], roi_gdf := false, constructedOk := true } :=
  (pipeline_init_polygon_failure_behavior (RoiArg.commaString [1, 2, 3, 4])
    "r.shp").2.1 [1, 2, 3, 4] (Or.inr rfl)

/-! ## Theorems about run_pipeline -/

lemma run_pipeline_acts (keep : Bool) (cancel : Option (Nat → Bool))
    (env : Nat → GranuleEnv) (gs : List String) :
    (run_pipeline keep cancel env gs).2 = (run_go keep cancel env gs 0).1 := by
  unfold run_pipeline
  cases (run_go keep cancel env gs 0).2 <;> rfl

lemma run_pipeline_ok (keep : Bool) (cancel : Option (Nat → Bool))
    (env : Nat → GranuleEnv) (gs : List String)
    (h : (run_go keep cancel env gs 0).2 = none) :
    (run_pipeline keep cancel env gs).1 = Except.ok gs := by
  unfold run_pipeline
  rw [h]

/-- Claim C1 evaluated at a failing input (this is the defect): on a
two-granule list whose first granule is not yet subsetted and whose
download attempt fails, `run_pipeline` raises `TypeError` — the Python
code executes `for r in retries` with `retries` the int `3` — instead of
retrying and moving on, and the second granule receives no work at all. -/
theorem run_pipeline_download_failure_aborts :
    (run_pipeline false none (fun _ => GranuleEnv.mk false false)
        ["u1", "u2"]).1 = Except.error typeErrorMsg ∧
    ∀ a ∈ (run_pipeline false none (fun _ => GranuleEnv.mk false false)
        ["u1", "u2"]).2, Act.idx a = 0 := by
  constructor
  · rfl
  · decide

lemma run_go_none_eq (keep : Bool) (env : Nat → GranuleEnv) :
    ∀ (gs : List String) (i : Nat),
      run_go keep none env gs i =
        run_go keep (some (fun _ => false)) env gs i := by
  intro gs
  induction gs with
  | nil => intro i; rfl
  | cons g rest ih =>
    intro i
    simp only [run_go, cancelIsSet, ih (i + 1)]

lemma run_go_all_ok (keep : Bool) (cancel : Option (Nat → Bool))
    (env : Nat → GranuleEnv) (hc : ∀ i, cancelIsSet cancel i = false) :
    ∀ (gs : List String) (j : Nat),
      (∀ i, i < gs.length → (env (j + i)).alreadySubsetted = true ∨
        (env (j + i)).downloadOk = true) →
      (run_go keep cancel env gs j).2 = none ∧
      (∀ i, i < gs.length →
        Act.skipCheck (j + i) ∈ (run_go keep cancel env gs j).1) := by
  intro gs
  induction gs with
  | nil => intro j h; exact ⟨rfl, by intro i hi; simp at hi⟩
  | cons g rest ih =>
    intro j h
    have h0 : (env j).alreadySubsetted = true ∨ (env j).downloadOk = true := by
      simpa using h 0 (by simp)
    have hrest : ∀ i, i < rest.length →
        (env ((j + 1) + i)).alreadySubsetted = true ∨
        (env ((j + 1) + i)).downloadOk = true := by
      intro i hi
      have hx := h (i + 1) (by simp; omega)
      have he : j + (i + 1) = j + 1 + i := by omega
      rwa [he] at hx
    obtain ⟨e1, e2⟩ := ih (j + 1) hrest
    by_cases hsub : (env j).alreadySubsetted = true
    · refine ⟨by simp [run_go, hc j, hsub, e1], ?_⟩
      intro i hi
      cases i with
      | zero => simp [run_go, hc j, hsub]
      | succ i' =>
        have hm := e2 i' (by simpa using hi)
        have he : j + (i' + 1) = j + 1 + i' := by omega
        rw [he]
        simp [run_go, hc j, hsub]
        tauto
    · have hdl : (env j).downloadOk = true := by tauto
      refine ⟨by simp [run_go, hc j, hsub, hdl, e1], ?_⟩
      intro i hi
      cases i with
      | zero => simp [run_go, hc j, hsub, hdl]
      | succ i' =>
        have hm := e2 i' (by simpa using hi)
        have he : j + (i' + 1) = j + 1 + i' := by omega
        rw [he]
        simp [run_go, hc j, hsub, hdl, List.mem_append]
        tauto

/-- Claim C10 counterexample: with `cancel_event = None` and a first
granule whose download fails, the second discovered granule never reaches
its per-granule processing steps (its existence check is never run),
because the defective retry loop raises and aborts the run. -/
theorem run_pipeline_none_cancel_cex :
    (["v1", "v2"] : List String).length = 2 ∧
    Act.skipCheck 1 ∉ (run_pipeline false none
      (fun _ => GranuleEnv.mk false false) ["v1", "v2"]).2 := by
  constructor
  · rfl
  · decide

/-- Claim C10 (amended): with `cancel_event = None` the cancellation check
short-circuits to false without dereferencing anything (the None case is
guarded), and the run behaves exactly as with a never-set signal, so
cancellation never truncates it; provided every granule is either already
subsetted or downloads on the first attempt (otherwise the defective
retry loop aborts the run, see C1), every discovered granule reaches its
per-granule processing steps and the full list is returned. -/
theorem run_pipeline_none_cancel_behavior (keep : Bool)
    (env : Nat → GranuleEnv) (gs : List String)
    (h : ∀ i, i < gs.length → (env i).alreadySubsetted = true ∨
      (env i).downloadOk = true) :
    run_pipeline keep none env gs =
      run_pipeline keep (some (fun _ => false)) env gs ∧
    (run_pipeline keep none env gs).1 = Except.ok gs ∧
    (∀ i, i < gs.length →
      Act.skipCheck i ∈ (run_pipeline keep none env gs).2) := by
  have hgo := run_go_all_ok keep none env (fun _ => rfl) gs 0 (by simpa using h)
  refine ⟨?_, run_pipeline_ok keep none env gs hgo.1, ?_⟩
  · unfold run_pipeline
    rw [run_go_none_eq keep env gs 0]
  · intro i hi
    rw [run_pipeline_acts]
    simpa using hgo.2 i hi

/-- Witness for the amended C10: two granules that both download on the
first attempt; the run returns the full list. -/
theorem run_pipeline_none_cancel_behavior_witness :
    (run_pipeline false none (fun _ => GranuleEnv.mk false true)
      ["w1", "w2"]).1 = Except.ok ["w1", "w2"] :=
  (run_pipeline_none_cancel_behavior false (fun _ => GranuleEnv.mk false true)
    ["w1", "w2"] (fun _ _ => Or.inr rfl)).2.1

lemma run_go_cancel_window (keep : Bool) (f : Nat → Bool)
    (env : Nat → GranuleEnv) :
    ∀ (gs : List String) (j k : Nat), k < gs.length →
      (∀ m, m < k → f (j + m) = false) → f (j + k) = true →
      (∀ m, m < k → (env (j + m)).alreadySubsetted = true ∨
        (env (j + m)).downloadOk = true) →
      (run_go keep (some f) env gs j).2 = none ∧
      (∀ a ∈ (run_go keep (some f) env gs j).1,
        a.isWork = true → a.idx < j + k ∧ j ≤ a.idx) ∧
      (∀ m, m < k →
        Act.skipCheck (j + m) ∈ (run_go keep (some f) env gs j).1) := by
  intro gs
  induction gs with
  | nil => intro j k hk; simp at hk
  | cons g rest ih =>
    intro j k hk hbef hat henv
    cases k with
    | zero =>
      have hj : cancelIsSet (some f) j = true := by simpa using hat
      refine ⟨by simp [run_go, hj], ?_, by intro m hm; omega⟩
      intro a ha hw
      simp [run_go, hj] at ha
      subst ha
      simp [Act.isWork] at hw
    | succ k' =>
      have hfj : f j = false := by simpa using hbef 0 (by omega)
      have hj : cancelIsSet (some f) j = false := by simpa using hfj
      have hk' : k' < rest.length := by simpa using hk
      have hbef' : ∀ m, m < k' → f ((j + 1) + m) = false := by
        intro m hm
        have hx := hbef (m + 1) (by omega)
        have he : j + (m + 1) = j + 1 + m := by omega
        rwa [he] at hx
      have hat' : f ((j + 1) + k') = true := by
        have he : j + (k' + 1) = j + 1 + k' := by omega
        rwa [he] at hat
      have henv' : ∀ m, m < k' → (env ((j + 1) + m)).alreadySubsetted = true ∨
          (env ((j + 1) + m)).downloadOk = true := by
        intro m hm
        have hx := henv (m + 1) (by omega)
        have he : j + (m + 1) = j + 1 + m := by omega
        rwa [he] at hx
      have h0 : (env j).alreadySubsetted = true ∨ (env j).downloadOk = true := by
        simpa using henv 0 (by omega)
      obtain ⟨e1, e2, e3⟩ := ih (j + 1) k' hk' hbef' hat' henv'
      by_cases hsub : (env j).alreadySubsetted = true
      · refine ⟨by simp [run_go, hj, hsub, e1], ?_, ?_⟩
        · intro a ha hw
          simp [run_go, hj, hsub] at ha
          rcases ha with rfl | rfl | ha
          · simp [Act.isWork] at hw
          · simp only [Act.idx]; omega
          · have := e2 a ha hw; omega
        · intro m hm
          cases m with
          | zero => simp [run_go, hj, hsub]
          | succ m' =>
            have hmem := e3 m' (by omega)
            have he : j + (m' + 1) = j + 1 + m' := by omega
            rw [he]
            simp [run_go, hj, hsub]
            tauto
      · have hdl : (env j).downloadOk = true := by tauto
        refine ⟨by simp [run_go, hj, hsub, hdl, e1], ?_, ?_⟩
        · intro a ha hw
          simp [run_go, hj, hsub, hdl, List.mem_append] at ha
          rcases ha with rfl | rfl | rfl | rfl | ha | ha
          · simp [Act.isWork] at hw
          · simp only [Act.idx]; omega
          · simp only [Act.idx]; omega
          · simp only [Act.idx]; omega
          · rcases keep with - | -
            · simp at ha
              subst ha
              simp only [Act.idx]; omega
            · simp at ha
          · have := e2 a ha hw; omega
        · intro m hm
          cases m with
          | zero => simp [run_go, hj, hsub, hdl]
          | succ m' =>
            have hmem := e3 m' (by omega)
            have he : j + (m' + 1) = j + 1 + m' := by omega
            rw [he]
            simp [run_go, hj, hsub, hdl, List.mem_append]
            tauto

/-- Claim C7: if the cancellation signal is observed unset at the first
`k` granule checks and set at check `k` (i.e. it was set after granule
`k`'s work finished and before granule `k+1` began), and granules
`0..k-1` complete their work (already subsetted or first download
succeeds — a failed download would abort, see C1), then `run_pipeline`
still returns the full discovered list, performs work only on granules
`0..k-1`, and every one of those granules was actually worked on. -/
theorem run_pipeline_cancel_boundary (keep : Bool) (f : Nat → Bool)
    (env : Nat → GranuleEnv) (gs : List String) (k : Nat)
    (hk : k < gs.length)
    (hbefore : ∀ m, m < k → f m = false) (hat : f k = true)
    (hwork : ∀ m, m < k → (env m).alreadySubsetted = true ∨
      (env m).downloadOk = true) :
    (run_pipeline keep (some f) env gs).1 = Except.ok gs ∧
    (∀ a ∈ (run_pipeline keep (some f) env gs).2,
      a.isWork = true → a.idx < k) ∧
    (∀ m, m < k →
      Act.skipCheck m ∈ (run_pipeline keep (some f) env gs).2) := by
  obtain ⟨e1, e2, e3⟩ := run_go_cancel_window keep f env gs 0 k hk
    (by simpa using hbefore) (by simpa using hat) (by simpa using hwork)
  refine ⟨run_pipeline_ok keep (some f) env gs e1, ?_, ?_⟩
  · intro a ha hw
    rw [run_pipeline_acts] at ha
    have := e2 a ha hw
    omega
  · intro m hm
    rw [run_pipeline_acts]
    simpa using e3 m hm

/-- Witness for C7: three granules, the first already subsetted, the
signal set after the first granule; the full list is still returned and
the first granule was worked on. -/
theorem run_pipeline_cancel_boundary_witness :
    (run_pipeline false (some (fun i => decide (1 ≤ i)))
      (fun _ => GranuleEnv.mk true false) ["c1", "c2", "c3"]).1 =
      Except.ok ["c1", "c2", "c3"] ∧
    Act.skipCheck 0 ∈ (run_pipeline false (some (fun i => decide (1 ≤ i)))
      (fun _ => GranuleEnv.mk true false) ["c1", "c2", "c3"]).2 :=
  have h := run_pipeline_cancel_boundary false (fun i => decide (1 ≤ i))
    (fun _ => GranuleEnv.mk true false) ["c1", "c2", "c3"] 1 (by decide)
    (fun m hm => by interval_cases m; rfl) rfl (fun _ _ => Or.inl rfl)
  ⟨h.1, h.2.2 0 (by omega)⟩

lemma run_go_removeRaw_follows_subset (cancel : Option (Nat → Bool))
    (env : Nat → GranuleEnv) :
    ∀ (gs : List String) (j i n : Nat),
      ((run_go false cancel env gs j).1)[n]? = some (Act.subset i) →
      ((run_go false cancel env gs j).1)[n + 1]? = some (Act.removeRaw i) := by
  intro gs
  induction gs with
  | nil => intro j i n h; simp [run_go] at h
  | cons g rest ih =>
    intro j i n h
    by_cases hc : cancelIsSet cancel j = true
    · simp [run_go, hc] at h ⊢
      rcases n with - | n <;> simp at h
    · replace hc : cancelIsSet cancel j = false := by
        simpa using hc
      by_cases hsub : (env j).alreadySubsetted = true
      · simp only [run_go, hc, hsub] at h ⊢
        simp only [if_false, Bool.false_eq_true, if_true] at h ⊢
        rcases n with - | n
        · simp at h
        rcases n with - | n
        · simp at h
        · have := ih (j + 1) i n (by simpa using h)
          simpa using this
      · by_cases hdl : (env j).downloadOk = true
        · simp only [run_go, hc, hsub, hdl] at h ⊢
          simp only [Bool.false_eq_true, if_false, if_true,
            List.nil_append, List.cons_append, List.singleton_append] at h ⊢
          rcases n with - | n
          · simp at h
          rcases n with - | n
          · simp at h
          rcases n with - | n
          · simp at h
          rcases n with - | n
          · -- position 3 holds the subset action of this granule
            simp at h
            simp [h]
          rcases n with - | n
          · simp at h
          · have := ih (j + 1) i n (by simpa using h)
            simpa using this
        · simp only [run_go, hc, hsub, hdl] at h
          simp only [Bool.false_eq_true, if_false] at h
          rcases n with - | n
          · simp at h
          rcases n with - | n
          · simp at h
          rcases n with - | n
          · simp at h
          · simp at h

lemma run_go_keep_no_removeRaw (cancel : Option (Nat → Bool))
    (env : Nat → GranuleEnv) :
    ∀ (gs : List String) (j i : Nat),
      Act.removeRaw i ∉ (run_go true cancel env gs j).1 := by
  intro gs
  induction gs with
  | nil => intro j i; simp [run_go]
  | cons g rest ih =>
    intro j i
    by_cases hc : cancelIsSet cancel j = true
    · simp [run_go, hc]
    · replace hc : cancelIsSet cancel j = false := by simpa using hc
      by_cases hsub : (env j).alreadySubsetted = true
      · simp [run_go, hc, hsub, ih (j + 1) i]
      · by_cases hdl : (env j).downloadOk = true
        · simp [run_go, hc, hsub, hdl, ih (j + 1) i]
        · simp [run_go, hc, hsub, hdl]

/-- Claim C8: with `keep_original_file` unset, whenever granule `i` was
subsetted (position `n` of the action trace), the very next action is the
deletion of its raw downloaded file — i.e. the deletion happens after
successful subsetting and before any further action, in particular before
work on the next granule begins; with `keep_original_file` set, no raw
file is ever removed. -/
theorem run_pipeline_cleanup_policy (cancel : Option (Nat → Bool))
    (env : Nat → GranuleEnv) (gs : List String) (i n : Nat)
    (h : ((run_pipeline false cancel env gs).2)[n]? = some (Act.subset i)) :
    ((run_pipeline false cancel env gs).2)[n + 1]? =
      some (Act.removeRaw i) ∧
    Act.removeRaw i ∉ (run_pipeline true cancel env gs).2 := by
  rw [run_pipeline_acts] at h ⊢
  rw [run_pipeline_acts]
  exact ⟨run_go_removeRaw_follows_subset cancel env gs 0 i n h,
    run_go_keep_no_removeRaw cancel env gs 0 i⟩

/-- Witness for C8: one granule that downloads on the first attempt; its
subset action sits at trace position 3 and the raw-file deletion at
position 4, while the keep-original run never deletes it. -/
theorem run_pipeline_cleanup_policy_witness :
    ((run_pipeline false none (fun _ => GranuleEnv.mk false true)
        ["k1"]).2)[3]? = some (Act.subset 0) ∧
    ((run_pipeline false none (fun _ => GranuleEnv.mk false true)
        ["k1"]).2)[4]? = some (Act.removeRaw 0) ∧
    Act.removeRaw 0 ∉ (run_pipeline true none
      (fun _ => GranuleEnv.mk false true) ["k1"]).2 :=
  ⟨by decide,
   (run_pipeline_cleanup_policy none (fun _ => GranuleEnv.mk false true)
     ["k1"] 0 3 (by decide)).1,
   (run_pipeline_cleanup_policy none (fun _ => GranuleEnv.mk false true)
     ["k1"] 0 3 (by decide)).2⟩

end GEDI
